import Mathlib

/-!
Verification of the multi-tenant telemetry pipeline (NATS playground).

Shallow embedding of the Go sources:
* `analysis-engine/main.go` — the Breach Detector (`processMessage`),
  consuming telemetry and counting consecutive threshold breaches in Redis;
* `ingestion-service/main.go` — the `/ingest` HTTP endpoint;
* the management service (`createOrganizationHandler`,
  `registerDeviceHandler`) and the SAS-token generator (`GenerateSASToken`);
* the data-persistence consumer's stream creation.

Machine floats (`float64` sensor values) are embedded as rationals: the code
only compares them with the literal threshold `80.0`, so the ordered-field
fragment used is exact.  Outcomes of external calls (Redis `Incr`, JetStream
`Publish`) are passed as explicit boolean parameters, `false` meaning that the
call succeeded.
-/

/-- `DataPoint` from the Go sources (identical declaration in the ingestion
service, the analysis engine and the persistence consumer): one sensor
reading `{organization_id, device_id, sensor_name, value, timestamp}`. -/
structure DataPoint where
  organizationID : String
  deviceID : String
  sensorName : String
  value : ℚ
  timestamp : Int
deriving DecidableEq, Repr

/-- `NotificationTrigger` from `analysis-engine/main.go`: the AlertEvent wire
value `{organization_id, device_id, sensor_name, condition}`. -/
structure NotificationTrigger where
  organizationID : String
  deviceID : String
  sensorName : String
  condition : String
deriving DecidableEq, Repr

namespace AnalysisEngine

/-- The breach predicate of `processMessage` for the monitored sensor:
`dp.Value > 80.0`. -/
def isBreachValue (v : ℚ) : Bool :=
  decide (80 < v)

/-- The alert subject `notifications.<organization_id>.<device_id>` built by
`processMessage` (line 131 of `analysis-engine/main.go`). -/
def notificationSubject (dp : DataPoint) : String :=
  "notifications." ++ dp.organizationID ++ "." ++ dp.deviceID

/-- The `NotificationTrigger` payload built by `processMessage`. -/
def mkTrigger (dp : DataPoint) : NotificationTrigger :=
  { organizationID := dp.organizationID
    deviceID := dp.deviceID
    sensorName := dp.sensorName
    condition := "Consecutive Temp Threshold Breach" }

/-- Result of processing one JetStream message: the Redis counter for the
`(device_id, sensor_name)` key of the message after processing (`0` = key
absent), the successfully published alerts, and whether the message was
acknowledged or negatively acknowledged. -/
structure ProcResult where
  count : Nat
  alerts : List (String × NotificationTrigger)
  acked : Bool
  nakked : Bool
deriving DecidableEq, Repr

/-- `processMessage` of `analysis-engine/main.go`, embedded.

`payload` is the result of `json.Unmarshal` (`none` = malformed).  `incrErr`
is true when the `rdb.Incr` call returns an error: the Go code then logs, the
local `breachCount` stays at its zero value `0` (so the `breachCount >= 3`
test is false), the remote counter is unchanged, and control falls through to
`msg.Ack()`.  `pubErr` is true when `js.Publish` of the alert returns an
error: the code logs and does NOT delete the counter.  Only a failed
unmarshal reaches `msg.Nak()`; every other path ends in `msg.Ack()`. -/
def processMessage (incrErr pubErr : Bool) (payload : Option DataPoint)
    (count : Nat) : ProcResult :=
  match payload with
  | none => { count := count, alerts := [], acked := false, nakked := true }
  | some dp =>
    if dp.sensorName = "temp1" ∧ 80 < dp.value then
      if incrErr then
        { count := count, alerts := [], acked := true, nakked := false }
      else
        let breachCount := count + 1
        if 3 ≤ breachCount then
          if pubErr then
            { count := breachCount, alerts := [], acked := true, nakked := false }
          else
            { count := 0, alerts := [(notificationSubject dp, mkTrigger dp)],
              acked := true, nakked := false }
        else
          { count := breachCount, alerts := [], acked := true, nakked := false }
    else if dp.sensorName = "temp1" ∧ dp.value ≤ 80 then
      { count := 0, alerts := [], acked := true, nakked := false }
    else
      { count := count, alerts := [], acked := true, nakked := false }

/-- One error-free transition of the breach counter for a monitored reading
with value `v`: the new counter value and the number of alerts emitted. -/
def step (c : Nat) (v : ℚ) : Nat × Nat :=
  if isBreachValue v then
    if 3 ≤ c + 1 then (0, 1) else (c + 1, 0)
  else (0, 0)

/-- `step` is exactly the error-free counter/alert behaviour of
`processMessage` on a reading of the monitored sensor. -/
theorem step_eq_processMessage (c : Nat) (dp : DataPoint)
    (hs : dp.sensorName = "temp1") :
    step c dp.value =
      ((processMessage false false (some dp) c).count,
        (processMessage false false (some dp) c).alerts.length) := by
  by_cases hv : (80 : ℚ) < dp.value
  · by_cases h3 : 3 ≤ c + 1 <;>
      simp [processMessage, step, isBreachValue, hs, hv, h3]
  · have hv' : dp.value ≤ 80 := le_of_not_lt hv
    simp [processMessage, step, isBreachValue, hs, hv, hv']

/-- Sequential processing of the readings of one monitored device+sensor key
by the Breach Detector, starting from counter value `c`: returns the final
counter value and the total number of alerts emitted. -/
def runDetector : Nat → List ℚ → Nat × Nat
  | c, [] => (c, 0)
  | c, v :: vs =>
    ((runDetector (step c v).1 vs).1,
      (step c v).2 + (runDetector (step c v).1 vs).2)

end AnalysisEngine

namespace AnalysisEngine

/-- Alert counts add up over concatenation of reading sequences. -/
theorem runDetector_append (xs ys : List ℚ) : ∀ c : Nat,
    runDetector c (xs ++ ys) =
      ((runDetector (runDetector c xs).1 ys).1,
        (runDetector c xs).2 + (runDetector (runDetector c xs).1 ys).2) := by
  induction xs with
  | nil => intro c; simp [runDetector]
  | cons v vs ih => intro c; simp [runDetector, ih, Nat.add_assoc]

/-- Three consecutive breaching readings fire at least one alert, from any
starting counter value. -/
theorem triple_alert (k : Nat) (a b d : ℚ) (ha : isBreachValue a = true)
    (hb : isBreachValue b = true) (hd : isBreachValue d = true) :
    0 < (runDetector k [a, b, d]).2 := by
  by_cases h1 : 3 ≤ k + 1
  · simp [runDetector, step, ha, hb, hd, h1]
  · by_cases h2 : 3 ≤ k + 2
    · simp [runDetector, step, ha, hb, hd, h1, h2]
    · have hk : k = 0 := by omega
      subst hk
      simp [runDetector, step, ha, hb, hd]

/-- If a run from counter `c` emits an alert, then either an all-breaching
leading segment pushes the counter to the threshold, or the readings contain
three consecutive breaching values. -/
theorem alerts_pos_sound (vs : List ℚ) : ∀ c : Nat,
    0 < (runDetector c vs).2 →
    (∃ p t, p ++ t = vs ∧ p ≠ [] ∧ (∀ v ∈ p, isBreachValue v = true) ∧
      3 ≤ c + p.length) ∨
    (∃ a b d s t, s ++ ([a, b, d] ++ t) = vs ∧ isBreachValue a = true ∧
      isBreachValue b = true ∧ isBreachValue d = true) := by
  induction vs with
  | nil => intro c h; simp [runDetector] at h
  | cons v vs ih =>
    intro c h
    by_cases hv : isBreachValue v = true
    · by_cases h3 : 3 ≤ c + 1
      · refine Or.inl ⟨[v], vs, rfl, by simp, ?_, by simpa using h3⟩
        intro x hx
        rcases List.mem_singleton.mp hx with rfl
        exact hv
      · have h' : 0 < (runDetector (c + 1) vs).2 := by
          simpa [runDetector, step, hv, h3] using h
        rcases ih (c + 1) h' with ⟨p, t, hpt, _, hall, hlen⟩ |
          ⟨a, b, d, s, t, hst, ha, hb, hd⟩
        · refine Or.inl ⟨v :: p, t, by simp [hpt], by simp, ?_, by simp; omega⟩
          intro x hx
          rcases List.mem_cons.mp hx with rfl | hx
          · exact hv
          · exact hall x hx
        · exact Or.inr ⟨a, b, d, v :: s, t, by simpa using hst, ha, hb, hd⟩
    · have hv' : isBreachValue v = false := by
        simpa using hv
      have h' : 0 < (runDetector 0 vs).2 := by
        simpa [runDetector, step, hv'] using h
      rcases ih 0 h' with ⟨p, t, hpt, hne, hall, hlen⟩ |
        ⟨a, b, d, s, t, hst, ha, hb, hd⟩
      · rcases p with _ | ⟨a, _ | ⟨b, _ | ⟨d, r⟩⟩⟩
        · exact absurd rfl hne
        · exact absurd hlen (by simp)
        · exact absurd hlen (by simp)
        · refine Or.inr ⟨a, b, d, [v], r ++ t, by simp [← hpt], ?_, ?_, ?_⟩
          · exact hall a (by simp)
          · exact hall b (by simp)
          · exact hall d (by simp)
      · exact Or.inr ⟨a, b, d, v :: s, t, by simpa using hst, ha, hb, hd⟩

/-- Completeness: three consecutive breaching readings anywhere in the
sequence force at least one alert when starting from an absent counter. -/
theorem triple_gives_alert (vs : List ℚ) (a b d : ℚ) (s t : List ℚ)
    (hst : s ++ ([a, b, d] ++ t) = vs) (ha : isBreachValue a = true)
    (hb : isBreachValue b = true) (hd : isBreachValue d = true) :
    0 < (runDetector 0 vs).2 := by
  have h1 := runDetector_append s ([a, b, d] ++ t) 0
  have h2 := runDetector_append [a, b, d] t (runDetector 0 s).1
  have h3 := triple_alert (runDetector 0 s).1 a b d ha hb hd
  have hval : (runDetector 0 vs).2 =
      (runDetector 0 s).2 +
        ((runDetector (runDetector 0 s).1 [a, b, d]).2 +
          (runDetector (runDetector (runDetector 0 s).1 [a, b, d]).1 t).2) := by
    rw [← hst, h1, h2]
  omega

end AnalysisEngine

namespace AnalysisEngine

/-- C1: for a monitored device+sensor key, the Breach Detector emits an
AlertEvent on a sequence of readings if and only if the sequence contains
three consecutive readings above the threshold 80 with no non-breaching
reading interleaved; and a breaching reading whose post-increment count
reaches the consecutive-breach threshold 3 emits exactly one alert (and
clears the counter). -/
theorem alert_iff_three_consecutive_breaches (vs : List ℚ) :
    (0 < (runDetector 0 vs).2 ↔
      ∃ a b d s t, s ++ ([a, b, d] ++ t) = vs ∧ isBreachValue a = true ∧
        isBreachValue b = true ∧ isBreachValue d = true) ∧
    (∀ c v, isBreachValue v = true → c + 1 = 3 → step c v = (0, 1)) := by
  refine ⟨⟨?_, ?_⟩, ?_⟩
  · intro h
    rcases alerts_pos_sound vs 0 h with ⟨p, t, hpt, hne, hall, hlen⟩ |
      ⟨a, b, d, s, t, hst, ha, hb, hd⟩
    · rcases p with _ | ⟨a, _ | ⟨b, _ | ⟨d, r⟩⟩⟩
      · exact absurd rfl hne
      · exact absurd hlen (by simp)
      · exact absurd hlen (by simp)
      · refine ⟨a, b, d, [], r ++ t, by simpa using hpt, ?_, ?_, ?_⟩
        · exact hall a (by simp)
        · exact hall b (by simp)
        · exact hall d (by simp)
    · exact ⟨a, b, d, s, t, hst, ha, hb, hd⟩
  · rintro ⟨a, b, d, s, t, hst, ha, hb, hd⟩
    exact triple_gives_alert vs a b d s t hst ha hb hd
  · intro c v hv h3
    have h3' : 3 ≤ c + 1 := by omega
    simp [step, hv, h3']

/-- Witness for C1 at the concrete run `[85, 90, 95]` and the concrete step
from count 2 on value 95. -/
theorem alert_iff_three_consecutive_breaches_witness :
    0 < (runDetector 0 [85, 90, 95]).2 ∧ step 2 95 = (0, 1) :=
  ⟨(alert_iff_three_consecutive_breaches [85, 90, 95]).1.mpr
      ⟨85, 90, 95, [], [], rfl, by decide, by decide, by decide⟩,
    (alert_iff_three_consecutive_breaches [85, 90, 95]).2 2 95 (by decide) rfl⟩

/-- C2: a reading of the monitored sensor that does not satisfy the breach
predicate (`value <= 80`) deletes the counter unconditionally, whatever its
prior value: processing ends with the counter absent (`0`), no alert, and an
acknowledgment. -/
theorem nonbreach_resets_counter (incrErr pubErr : Bool) (c : Nat)
    (dp : DataPoint) (hs : dp.sensorName = "temp1") (hv : dp.value ≤ 80) :
    processMessage incrErr pubErr (some dp) c =
      { count := 0, alerts := [], acked := true, nakked := false } := by
  have hv' : ¬ (80 : ℚ) < dp.value := not_lt.mpr hv
  simp [processMessage, hs, hv, hv']

/-- Witness for C2: a reading of 75 on `temp1` with prior count 2. -/
theorem nonbreach_resets_counter_witness :
    processMessage false false
        (some { organizationID := "orgA", deviceID := "machine-123",
                sensorName := "temp1", value := 75, timestamp := 0 }) 2 =
      { count := 0, alerts := [], acked := true, nakked := false } :=
  nonbreach_resets_counter false false 2 _ rfl (by norm_num)

/-- C3: whenever processing a message actually publishes an AlertEvent, the
counter for that key is left absent (`0`); consequently the next single
breaching reading for the key yields a post-increment count of 1 (a fresh
armed state) and no alert. -/
theorem counter_absent_after_alert (incrErr pubErr : Bool) (c : Nat)
    (dp : DataPoint)
    (h : (processMessage incrErr pubErr (some dp) c).alerts ≠ []) :
    (processMessage incrErr pubErr (some dp) c).count = 0 ∧
      ∀ dp' : DataPoint, dp'.sensorName = "temp1" → 80 < dp'.value →
        (processMessage false false (some dp') 0).count = 1 ∧
        (processMessage false false (some dp') 0).alerts = [] := by
  constructor
  · simp only [processMessage] at h ⊢
    split_ifs at h ⊢ <;> simp_all
  · intro dp' hs' hv'
    simp [processMessage, hs', hv']

/-- Witness for C3: a third consecutive breach publishes, leaving count 0,
and a fresh breach then yields count 1 with no alert. -/
theorem counter_absent_after_alert_witness :
    (processMessage false false
        (some { organizationID := "orgA", deviceID := "machine-123",
                sensorName := "temp1", value := 95, timestamp := 0 }) 2).count = 0 ∧
      (processMessage false false
        (some { organizationID := "orgA", deviceID := "machine-123",
                sensorName := "temp1", value := 95, timestamp := 0 }) 0).count = 1 ∧
      (processMessage false false
        (some { organizationID := "orgA", deviceID := "machine-123",
                sensorName := "temp1", value := 95, timestamp := 0 }) 0).alerts = [] := by
  have h := counter_absent_after_alert false false 2
    { organizationID := "orgA", deviceID := "machine-123",
      sensorName := "temp1", value := 95, timestamp := 0 } (by decide)
  exact ⟨h.1, h.2 _ rfl (by norm_num)⟩

/-- C4 evaluation: when the Redis increment fails (`incrErr = true`) on a
breaching `temp1` reading, `processMessage` logs, leaves the counter alone,
publishes nothing — and still ACKNOWLEDGES the message (`acked = true`,
`nakked = false`), instead of negatively acknowledging it as the spec
requires for a transient counter-store failure. -/
theorem incr_error_still_acked :
    processMessage true false
        (some { organizationID := "orgA", deviceID := "machine-123",
                sensorName := "temp1", value := 95, timestamp := 1000 }) 2 =
      { count := 2, alerts := [], acked := true, nakked := false } := by
  decide

end AnalysisEngine

namespace Nats

/-- NATS subject token matching: a filter token list matches a subject token
list; `*` matches exactly one token and a final `>` matches one or more
remaining tokens.  Subjects in the Go sources are built by joining tokens
with `.` (for example `fmt.Sprintf` of `data.%s.>`); the embedding carries
the token lists directly, which is faithful whenever the interpolated
identifiers contain no dot. -/
def tokenMatch : List String → List String → Bool
  | [], [] => true
  | [">"], _ :: _ => true
  | p :: ps, s :: ss => (p == "*" || p == s) && tokenMatch ps ss
  | _, _ => false

/-- A subject is captured by a stream binding when some filter of the
binding matches it. -/
def subjectMatches (filters : List (List String)) (subj : List String) : Bool :=
  filters.any fun f => tokenMatch f subj

/-- JetStream stream storage backend (`nats.FileStorage` in both `AddStream`
calls of the sources). -/
inductive StorageType
  | file
  | memory
deriving DecidableEq, Repr

/-- The `nats.StreamConfig` fields the sources set: name, subject filters
(as token lists) and storage. -/
structure StreamConfig where
  name : String
  subjects : List (List String)
  storage : StorageType
deriving DecidableEq, Repr

/-- Lookup of an existing stream by name in the broker state. -/
def findStream (ss : List StreamConfig) (n : String) : Option StreamConfig :=
  ss.find? fun c => c.name == n

/-- `js.AddStream`, modelling the NATS JetStream create-stream call of the
external broker collaborator: creating a stream that does not exist stores
its configuration; re-creating an existing stream with the identical
configuration is a no-op success; creating it with a different configuration
fails (`none`) with a name-already-in-use error. -/
def jsAddStream (ss : List StreamConfig) (cfg : StreamConfig) :
    Option (List StreamConfig) :=
  match findStream ss cfg.name with
  | none => some (cfg :: ss)
  | some c => if c = cfg then some ss else none

end Nats

namespace Management

open Nats

/-- `Organization` from the management service: `{id, name}`, both fields
carrying a `required` validation tag. -/
structure Organization where
  id : String
  name : String
deriving DecidableEq, Repr

/-- The stream configuration built by `createOrganizationHandler`:
name `ORG_<id>_STREAM`, subjects `data.<id>.>`, file storage. -/
def orgStreamConfig (orgID : String) : StreamConfig :=
  { name := "ORG_" ++ orgID ++ "_STREAM"
    subjects := [["data", orgID, ">"]]
    storage := .file }

/-- `createOrganizationHandler` of the management service, embedded over the
broker stream state.  Returns the HTTP status and the new broker state:
400 on a malformed or invalid body (the `required` validator rejects empty
strings), 500 when `js.AddStream` errors, 201 on success. -/
def createOrganizationHandler (ss : List StreamConfig)
    (body : Option Organization) : Nat × List StreamConfig :=
  match body with
  | none => (400, ss)
  | some org =>
    if org.id = "" ∨ org.name = "" then (400, ss)
    else
      match jsAddStream ss (orgStreamConfig org.id) with
      | none => (500, ss)
      | some ss' => (201, ss')

end Management

namespace Persistence

open Nats

/-- The stream configuration the data-persistence consumer creates in its
`main` (`js.AddStream` with name `ORG_orgA_STREAM` and subjects `data.>`). -/
def persistenceStreamConfig : StreamConfig :=
  { name := "ORG_orgA_STREAM"
    subjects := [["data", ">"]]
    storage := .file }

end Persistence

open Nats Management Persistence in
/-- C5 counterexample: the stream whose creation the data-persistence
pipeline consumer requests is named `ORG_orgA_STREAM` — the deterministic
stream name for organization `orgA` — yet is bound to the subject filter
`data.>`, which captures a TelemetryEvent published on the subject of the
distinct organization `orgB`.  This refutes the claim that every stream
bound by a pipeline consumer is bound exactly to `data.<organization_id>.>`
and is disjoint from the subject space of any other organization. -/
theorem persistence_stream_captures_other_org :
    subjectMatches persistenceStreamConfig.subjects
        ["data", "orgB", "dev1", "temp1"] = true ∧
      persistenceStreamConfig.name = (orgStreamConfig "orgA").name ∧
      persistenceStreamConfig.subjects ≠ [["data", "orgA", ">"]] ∧
      ("orgA" : String) ≠ "orgB" := by
  decide

namespace Management

open Nats

/-- C5 amended: streams provisioned by `createOrganizationHandler` are bound
exactly to `data.<organization_id>.>`, and for two distinct organization
identifiers (single subject tokens, not the wildcard `*`) the stream of A
never captures a telemetry subject of B; the exception is the
data-persistence consumer, whose stream request binds `data.>`
(see the counterexample). -/
theorem org_streams_disjoint (A B dev sens : String) (hAB : A ≠ B)
    (hstar : A ≠ "*") :
    (orgStreamConfig A).subjects = [["data", A, ">"]] ∧
    subjectMatches (orgStreamConfig A).subjects ["data", B, dev, sens] = false := by
  have h1 : (A == "*") = false := beq_eq_false_iff_ne.mpr hstar
  have h2 : (A == B) = false := beq_eq_false_iff_ne.mpr hAB
  exact ⟨rfl, by simp [subjectMatches, tokenMatch, orgStreamConfig, h1, h2]⟩

/-- Witness for the amended C5 at organizations `orgA`, `orgB`. -/
theorem org_streams_disjoint_witness :
    (orgStreamConfig "orgA").subjects = [["data", "orgA", ">"]] ∧
    subjectMatches (orgStreamConfig "orgA").subjects
      ["data", "orgB", "dev1", "temp1"] = false :=
  org_streams_disjoint "orgA" "orgB" "dev1" "temp1" (by decide) (by decide)

/-- C9: provisioning an organization is idempotent.  If a first call to
`createOrganizationHandler` succeeds (201), running it again for the same
organization returns success again — not a duplicate-stream error — and
leaves the broker stream state unchanged, because the handler rebuilds the
identical deterministic configuration and the JetStream create call is a
no-op success on an identical existing stream. -/
theorem provision_idempotent (ss : List StreamConfig) (org : Organization)
    (h : (createOrganizationHandler ss (some org)).1 = 201) :
    createOrganizationHandler (createOrganizationHandler ss (some org)).2
        (some org) =
      (201, (createOrganizationHandler ss (some org)).2) := by
  by_cases hval : org.id = "" ∨ org.name = ""
  · simp [createOrganizationHandler, hval] at h
  · cases hadd : jsAddStream ss (orgStreamConfig org.id) with
    | none => simp [createOrganizationHandler, hval, hadd] at h
    | some ss' =>
      have hfind : findStream ss' (orgStreamConfig org.id).name =
          some (orgStreamConfig org.id) := by
        unfold jsAddStream at hadd
        cases hf : findStream ss (orgStreamConfig org.id).name with
        | none =>
          rw [hf] at hadd
          have hss : orgStreamConfig org.id :: ss = ss' :=
            Option.some.inj hadd
          rw [← hss]
          simp [findStream]
        | some c =>
          rw [hf] at hadd
          by_cases hc : c = orgStreamConfig org.id
          · subst hc
            have hss : ss = ss' := by
              simpa using hadd
            rw [← hss]
            exact hf
          · simp [hc] at hadd
      simp only [createOrganizationHandler, hval, hadd, if_false]
      simp [createOrganizationHandler, hval, jsAddStream, hfind, hadd]

/-- Witness for C9: provisioning `orgA` twice from an empty broker state. -/
theorem provision_idempotent_witness :
    createOrganizationHandler
        (createOrganizationHandler []
          (some { id := "orgA", name := "Acme Corp" })).2
        (some { id := "orgA", name := "Acme Corp" }) =
      (201,
        (createOrganizationHandler []
          (some { id := "orgA", name := "Acme Corp" })).2) :=
  provision_idempotent [] { id := "orgA", name := "Acme Corp" } (by decide)

end Management

namespace Credentials

/-- NATS JWT user permission set (`jwt.Permissions.Pub` / `.Sub`): allow and
deny subject lists, both empty in a fresh `jwt.NewUserClaims`. -/
structure Permission where
  allow : List String
  deny : List String
deriving DecidableEq, Repr

/-- The fields of `jwt.UserClaims` that the sources set.  `expires` and
`notBefore` embed the `int64` claims `Expires`/`NotBefore`, whose Go zero
value `0` means that the claim is not set (no expiry). -/
structure UserClaims where
  subject : String
  pub : Permission
  sub : Permission
  expires : Int
  notBefore : Int
deriving DecidableEq, Repr

/-- `jwt.NewUserClaims(subject)`: fresh claims with empty permissions and
unset (`0`) expiry and not-before. -/
def newUserClaims (subj : String) : UserClaims :=
  { subject := subj
    pub := { allow := [], deny := [] }
    sub := { allow := [], deny := [] }
    expires := 0
    notBefore := 0 }

/-- The publish-subject pattern granted to a device:
`data.<organization_id>.<device_id>.>`. -/
def devicePubPattern (orgID deviceID : String) : String :=
  "data." ++ orgID ++ "." ++ deviceID ++ ".>"

/-- The claims built by `registerDeviceHandler` (management service):
`jwt.NewUserClaims(deviceID)` plus one publish-allow entry.  No expiry is
set on this path. -/
def registerDeviceClaims (orgID deviceID : String) : UserClaims :=
  let c := newUserClaims deviceID
  { c with pub := { c.pub with
      allow := c.pub.allow ++ [devicePubPattern orgID deviceID] } }

/-- The claims built by `GenerateSASToken`: the same publish-allow entry,
plus `Expires = now + 12h` and `NotBefore = now`. -/
def generateSASTokenClaims (orgID deviceID : String) (now : Int) : UserClaims :=
  let c := newUserClaims deviceID
  { c with
    pub := { c.pub with
      allow := c.pub.allow ++ [devicePubPattern orgID deviceID] }
    expires := now + 12 * 3600
    notBefore := now }

/-- `claims.Encode(signingKey)`: succeeds only when a signing key is
available; the signed token is the claims together with the key used. -/
def encodeClaims (key : Option String) (c : UserClaims) :
    Option (UserClaims × String) :=
  match key with
  | none => none
  | some k => some (c, k)

/-- C6: the token claims issued on device registration (and by the SAS-token
generator) carry exactly the single publish capability
`data.<organization_id>.<device_id>.>` — nothing broader — and no
subscribe permission of any kind. -/
theorem device_token_scope_exact (orgID deviceID : String) (now : Int) :
    (registerDeviceClaims orgID deviceID).pub.allow =
        [devicePubPattern orgID deviceID] ∧
      (registerDeviceClaims orgID deviceID).pub.deny = [] ∧
      (registerDeviceClaims orgID deviceID).sub.allow = [] ∧
      (registerDeviceClaims orgID deviceID).sub.deny = [] ∧
      (generateSASTokenClaims orgID deviceID now).pub.allow =
        [devicePubPattern orgID deviceID] ∧
      (generateSASTokenClaims orgID deviceID now).sub.allow = [] ∧
      (generateSASTokenClaims orgID deviceID now).sub.deny = [] := by
  simp [registerDeviceClaims, generateSASTokenClaims, newUserClaims]

/-- C7 counterexample: the claims issued by `registerDeviceHandler` leave
`Expires` at the Go zero value `0`, i.e. carry no explicit expiry — refuting
the claim that every token issued by the credential issuer carries one. -/
theorem register_token_has_no_expiry :
    (registerDeviceClaims "org1" "dev1").expires = 0 := by
  rfl

/-- C7 amended: tokens from `GenerateSASToken` carry an explicit expiry of
`now + 12 * 3600` seconds (and a not-before of `now`), but tokens issued by
the device-registration handler set no expiry (`Expires` stays `0`). -/
theorem token_expiry_amended (orgID deviceID : String) (now : Int) :
    (generateSASTokenClaims orgID deviceID now).expires = now + 43200 ∧
      (generateSASTokenClaims orgID deviceID now).notBefore = now ∧
      (registerDeviceClaims orgID deviceID).expires = 0 := by
  refine ⟨?_, rfl, rfl⟩
  show now + 12 * 3600 = now + 43200
  norm_num

end Credentials

namespace Management

open Credentials

/-- Lowercase hexadecimal digit, as in the `uuid` validation tag of the
go-playground validator. -/
def isLowerHexDigit (ch : Char) : Bool :=
  ch.isDigit || ('a' ≤ ch && ch ≤ 'f')

/-- Shape check for a canonical UUID string: 36 characters, hyphens at
positions 8, 13, 18 and 23, lowercase hex digits elsewhere. -/
def uuidShape : List Char → Nat → Bool
  | [], i => i == 36
  | ch :: rest, i =>
    (if i == 8 || i == 13 || i == 18 || i == 23 then ch == '-'
      else isLowerHexDigit ch) && uuidShape rest (i + 1)

/-- The `uuid` validation tag applied to `DeviceRegistration.OrganizationID`. -/
def isUUID (s : String) : Bool :=
  uuidShape s.toList 0

/-- `DeviceRegistration` from the management service:
`{organization_id (required, uuid), name (required)}`. -/
structure DeviceRegistration where
  organizationID : String
  name : String
deriving DecidableEq, Repr

/-- The package-level state of the management service after `main` has run
its startup sequence: only the signing key matters to the handlers.  In the
source, `main` calls `nkeys.CreateUser()`, logs the seed of the resulting
key pair — and never assigns the package-level `signingKey` variable, which
therefore stays nil. -/
structure IssuerState where
  signingKey : Option String
deriving DecidableEq, Repr

/-- The startup sequence of the management-service `main`, embedded.
`natsOk` is whether the NATS connection succeeds and `createdKey` the result
of `nkeys.CreateUser()`; a failure of either is `log.Fatalf`/`log.Fatal`
(process abort, `none`).  On success the global `signingKey` is still
unassigned (`none`): the created key pair is only logged. -/
def issuerStartup (natsOk : Bool) (createdKey : Option String) :
    Option IssuerState :=
  if natsOk then
    match createdKey with
    | none => none
    | some _ => some { signingKey := none }
  else none

/-- `registerDeviceHandler` of the management service, embedded.  `deviceID`
stands for the freshly generated `uuid.New().String()`.  Returns the HTTP
status and, on success, the device id and signed token. -/
def registerDeviceHandler (st : IssuerState)
    (body : Option DeviceRegistration) (deviceID : String) :
    Nat × Option (String × (UserClaims × String)) :=
  match body with
  | none => (400, none)
  | some reg =>
    if isUUID reg.organizationID && decide (reg.name ≠ "") then
      match encodeClaims st.signingKey
          (registerDeviceClaims reg.organizationID deviceID) with
      | none => (500, none)
      | some tok => (201, some (deviceID, tok))
    else (400, none)

/-- C8 evaluation: startup does abort when `nkeys.CreateUser` fails, but
when it succeeds the package-level `signingKey` is never assigned, so after
a normal startup every valid device-registration request fails the
`claims.Encode(signingKey)` call and returns the per-request error 500 —
contradicting the claim that an unavailable signing key can only manifest
as a fatal startup error. -/
theorem signing_key_never_assigned (natsOk : Bool) (seed : String)
    (reg : DeviceRegistration) (deviceID : String)
    (hu : isUUID reg.organizationID = true) (hn : reg.name ≠ "") :
    issuerStartup natsOk none = none ∧
      issuerStartup true (some seed) = some { signingKey := none } ∧
      (registerDeviceHandler { signingKey := none } (some reg) deviceID).1 =
        500 := by
  refine ⟨?_, rfl, ?_⟩
  · cases natsOk <;> rfl
  · simp [registerDeviceHandler, hu, hn, encodeClaims]

/-- Witness for the C8 evaluation at a concrete valid registration request
after a successful startup. -/
theorem signing_key_never_assigned_witness :
    issuerStartup true none = none ∧
      issuerStartup true (some "SUAEXAMPLESEED") =
        some { signingKey := none } ∧
      (registerDeviceHandler { signingKey := none }
          (some { organizationID := "123e4567-e89b-12d3-a456-426614174000",
                  name := "sensor-1" }) "dev-1").1 = 500 :=
  signing_key_never_assigned true "SUAEXAMPLESEED"
    { organizationID := "123e4567-e89b-12d3-a456-426614174000",
      name := "sensor-1" } "dev-1" (by decide) (by decide)

end Management

namespace Ingestion

/-- The `required` validation of the ingestion-service `DataPoint`: the
go-playground validator rejects a field holding the zero value of its type,
so empty strings, a `0` value and a `0` timestamp all fail validation. -/
def validateRequired (dp : DataPoint) : Bool :=
  decide (dp.organizationID ≠ "" ∧ dp.deviceID ≠ "" ∧ dp.sensorName ≠ "" ∧
    dp.value ≠ 0 ∧ dp.timestamp ≠ 0)

/-- The publish subject built by `ingestHandler`:
`data.<organization_id>.<device_id>.<sensor_name>`. -/
def ingestSubject (dp : DataPoint) : String :=
  "data." ++ dp.organizationID ++ "." ++ dp.deviceID ++ "." ++ dp.sensorName

/-- `ingestHandler` of `ingestion-service/main.go`, embedded: method check,
JSON decode (`none` = parse failure), `required` validation, then a
JetStream publish (`publishOk` models its outcome).  Returns the HTTP status
and the list of published (subject, payload) pairs. -/
def ingestHandler (publishOk : Bool) (methodPost : Bool)
    (body : Option DataPoint) : Nat × List (String × DataPoint) :=
  if methodPost then
    match body with
    | none => (400, [])
    | some dp =>
      if validateRequired dp then
        if publishOk then (200, [(ingestSubject dp, dp)]) else (500, [])
      else (400, [])
  else (405, [])

/-- C10: a parsed ingestion request whose value or timestamp equals `0` is
rejected with HTTP 400 and nothing is published, because the `required`
validation treats a zero value as a missing field — so a syntactically
complete TelemetryEvent with a legitimate zero reading is never accepted. -/
theorem zero_value_rejected (publishOk : Bool) (dp : DataPoint)
    (h : dp.value = 0 ∨ dp.timestamp = 0) :
    ingestHandler publishOk true (some dp) = (400, []) := by
  have hv : validateRequired dp = false := by
    rcases h with h | h <;> simp [validateRequired, h]
  simp [ingestHandler, hv]

/-- Witness for C10: a complete reading with value `0` is rejected. -/
theorem zero_value_rejected_witness :
    ingestHandler true true
        (some { organizationID := "orgA", deviceID := "machine-123",
                sensorName := "temp1", value := 0,
                timestamp := 1700000000 }) = (400, []) :=
  zero_value_rejected true
    { organizationID := "orgA", deviceID := "machine-123",
      sensorName := "temp1", value := 0, timestamp := 1700000000 }
    (Or.inl rfl)

end Ingestion
